import Mathlib

/-!
Shallow embedding of the two CSV-to-JSON loader scripts of this repository:
variant A is src/PythonAPILoader-CustomResource/CustomResourceLoader.py and
variant B is src/PythonAPILoader-VulnerabilityResource/VulnerabilityLoader.py.
Python values that can appear in a built payload are modelled by PyVal, and a
cleaned CSV row is an ordered association list from column name to an optional
string cell, where Option.none models the Python value None that DictReader
inserts for short rows.
-/

/-- Python values that can occur in a built payload. JSON numbers are kept by
their source lexeme, since the scripts never compute with them; this is exact
for integer literals and approximates Python float formatting for others. -/
inductive PyVal where
| vNone : PyVal
| vBool : Bool → PyVal
| vNum : String → PyVal
| vStr : String → PyVal
| vList : List PyVal → PyVal
| vDict : List (String × PyVal) → PyVal
deriving Repr

/-- The opening curly bracket character. -/
def lbrace : Char := Char.ofNat 123

/-- The closing curly bracket character. -/
def rbrace : Char := Char.ofNat 125

/-- The single quotation mark character, used by the Python repr of strings. -/
def squote : Char := Char.ofNat 39

/-- Characters removed by the Python str.strip method with no argument,
restricted to the ASCII whitespace set that CSV data contains. -/
def isPyWs (c : Char) : Bool :=
  c = ' ' || c = '\t' || c = '\n' || c = '\r' || c = Char.ofNat 11 || c = Char.ofNat 12

/-- Strip leading and trailing whitespace from a character list. -/
def stripList (l : List Char) : List Char :=
  ((l.dropWhile isPyWs).reverse.dropWhile isPyWs).reverse

/-- Model of the Python str.strip method with no argument. -/
def pyStrip (s : String) : String := String.mk (stripList s.data)

/-- Model of the Python str.lower method, restricted to ASCII case mapping. -/
def pyLower (s : String) : String := String.mk (s.data.map Char.toLower)

/-- Model of the Python str.startswith method for a one-character argument. -/
def startsWithChar (s : String) (c : Char) : Bool :=
  match s.data with
  | [] => false
  | d :: _ => d == c

/-- Model of the Python str.endswith method for a one-character argument. -/
def endsWithChar (s : String) (c : Char) : Bool :=
  match s.data.getLast? with
  | none => false
  | some d => d == c

/-- Model of the Python membership test of a single character in a string. -/
def containsChar (s : String) (c : Char) : Bool := s.data.contains c

/-- Splitter for splitChar: characters seen since the last separator are
accumulated in reverse. -/
def splitCharAux (c : Char) : List Char → List Char → List String
  | [], acc => [String.mk acc.reverse]
  | d :: ds, acc =>
    if d == c then String.mk acc.reverse :: splitCharAux c ds []
    else splitCharAux c ds (d :: acc)

/-- Model of the Python str.split method for a one-character separator:
empty parts are kept, and the empty string yields one empty part. -/
def splitChar (s : String) (c : Char) : List String := splitCharAux c s.data []

/-- Model of the Python str.rstrip method with argument the slash string:
removes every trailing slash character. -/
def pyRstripSlashes (s : String) : String :=
  String.mk ((s.data.reverse.dropWhile (fun c => c == '/')).reverse)

/-- Whitespace skipped between JSON tokens by the Python json module. -/
def isJsonWs (c : Char) : Bool :=
  c = ' ' || c = '\t' || c = '\n' || c = '\r'

/-- Drop leading JSON whitespace. -/
def skipWs : List Char → List Char
  | [] => []
  | c :: cs => if isJsonWs c then skipWs cs else c :: cs

/-- Numeric value of a hexadecimal digit, if any. -/
def hexVal (c : Char) : Option Nat :=
  if '0' ≤ c ∧ c ≤ '9' then some (c.toNat - '0'.toNat)
  else if 'a' ≤ c ∧ c ≤ 'f' then some (c.toNat - 'a'.toNat + 10)
  else if 'A' ≤ c ∧ c ≤ 'F' then some (c.toNat - 'A'.toNat + 10)
  else none

/-- Parse the body of a JSON string literal, after the opening quotation mark,
accumulating decoded characters in reverse. Models the strict mode of the
Python json module: raw control characters are rejected, the standard escape
sequences and four-digit unicode escapes are decoded (surrogate pairing of
consecutive unicode escapes is not modelled; no claim exercises it). -/
def parseJsonString : Nat → List Char → List Char → Option (String × List Char)
  | 0, _, _ => none
  | _ + 1, acc, [] =>
    let _ := acc
    none
  | fuel + 1, acc, c :: rest =>
    if c = '"' then some (String.mk acc.reverse, rest)
    else if c = '\\' then
      match rest with
      | [] => none
      | e :: rest2 =>
        if e = '"' then parseJsonString fuel ('"' :: acc) rest2
        else if e = '\\' then parseJsonString fuel ('\\' :: acc) rest2
        else if e = '/' then parseJsonString fuel ('/' :: acc) rest2
        else if e = 'b' then parseJsonString fuel (Char.ofNat 8 :: acc) rest2
        else if e = 'f' then parseJsonString fuel (Char.ofNat 12 :: acc) rest2
        else if e = 'n' then parseJsonString fuel ('\n' :: acc) rest2
        else if e = 'r' then parseJsonString fuel ('\r' :: acc) rest2
        else if e = 't' then parseJsonString fuel ('\t' :: acc) rest2
        else if e = 'u' then
          match rest2 with
          | h1 :: h2 :: h3 :: h4 :: rest3 =>
            match hexVal h1, hexVal h2, hexVal h3, hexVal h4 with
            | some a, some b, some c2, some d =>
              parseJsonString fuel (Char.ofNat (((a * 16 + b) * 16 + c2) * 16 + d) :: acc) rest3
            | _, _, _, _ => none
          | _ => none
        else none
    else if c.toNat < 32 then none
    else parseJsonString fuel (c :: acc) rest

/-- Take a maximal run of decimal digits. -/
def takeDigits : List Char → List Char × List Char
  | [] => ([], [])
  | c :: cs =>
    if c.isDigit then
      let p := takeDigits cs
      (c :: p.1, p.2)
    else ([], c :: cs)

/-- Parse an optional JSON fraction part. -/
def parseFrac (cs : List Char) : List Char × List Char :=
  match cs with
  | '.' :: r =>
    let p := takeDigits r
    if p.1 = [] then ([], cs) else ('.' :: p.1, p.2)
  | _ => ([], cs)

/-- Parse an optional JSON exponent part. -/
def parseExp (cs : List Char) : List Char × List Char :=
  match cs with
  | [] => ([], cs)
  | c :: r =>
    if c = 'e' ∨ c = 'E' then
      match r with
      | [] => ([], cs)
      | s :: r2 =>
        if s = '+' ∨ s = '-' then
          let p := takeDigits r2
          if p.1 = [] then ([], cs) else (c :: s :: p.1, p.2)
        else
          let p := takeDigits r
          if p.1 = [] then ([], cs) else (c :: p.1, p.2)
    else ([], cs)

/-- Parse a JSON number following the grammar used by the Python json module,
returning its lexeme. -/
def parseNumber (cs : List Char) : Option (String × List Char) :=
  let sign : List Char × List Char :=
    match cs with
    | c :: r => if c = '-' then ([c], r) else ([], cs)
    | [] => ([], cs)
  match sign.2 with
  | [] => none
  | c :: r =>
    if c = '0' then
      let f := parseFrac r
      let e := parseExp f.2
      some (String.mk (sign.1 ++ [c] ++ f.1 ++ e.1), e.2)
    else if c.isDigit then
      let d := takeDigits r
      let f := parseFrac d.2
      let e := parseExp f.2
      some (String.mk (sign.1 ++ (c :: d.1) ++ f.1 ++ e.1), e.2)
    else none

mutual

/-- Fuel-indexed recursive descent parser for one JSON value, modelling the
Python json.loads grammar (the nonstandard NaN and Infinity extensions of the
Python json module are not modelled; no claim exercises them). -/
def parseJsonValue : Nat → List Char → Option (PyVal × List Char)
  | 0, _ => none
  | fuel + 1, cs =>
    match skipWs cs with
    | [] => none
    | c :: rest =>
      if c = '"' then
        match parseJsonString (rest.length + 1) [] rest with
        | some (s, r) => some (PyVal.vStr s, r)
        | none => none
      else if c = '[' then
        match parseArrayRest fuel rest with
        | some (xs, r) => some (PyVal.vList xs, r)
        | none => none
      else if c = lbrace then
        match parseObjRest fuel rest with
        | some (kvs, r) => some (PyVal.vDict kvs, r)
        | none => none
      else if c = 't' then
        match rest with
        | 'r' :: 'u' :: 'e' :: r => some (PyVal.vBool true, r)
        | _ => none
      else if c = 'f' then
        match rest with
        | 'a' :: 'l' :: 's' :: 'e' :: r => some (PyVal.vBool false, r)
        | _ => none
      else if c = 'n' then
        match rest with
        | 'u' :: 'l' :: 'l' :: r => some (PyVal.vNone, r)
        | _ => none
      else if c = '-' ∨ c.isDigit then
        match parseNumber (c :: rest) with
        | some (s, r) => some (PyVal.vNum s, r)
        | none => none
      else none

/-- Parse the remainder of a JSON array, after the opening square bracket. -/
def parseArrayRest : Nat → List Char → Option (List PyVal × List Char)
  | 0, _ => none
  | fuel + 1, cs =>
    match skipWs cs with
    | [] => none
    | d :: r =>
      if d = ']' then some ([], r)
      else parseJsonItems fuel (d :: r)

/-- Parse one or more comma-separated JSON array items up to the closing
square bracket. -/
def parseJsonItems : Nat → List Char → Option (List PyVal × List Char)
  | 0, _ => none
  | fuel + 1, cs =>
    match parseJsonValue fuel cs with
    | none => none
    | some (v, r) =>
      match skipWs r with
      | ',' :: r2 =>
        match parseJsonItems fuel r2 with
        | some (vs, r3) => some (v :: vs, r3)
        | none => none
      | ']' :: r2 => some ([v], r2)
      | _ => none

/-- Parse the remainder of a JSON object, after the opening curly bracket. -/
def parseObjRest : Nat → List Char → Option (List (String × PyVal) × List Char)
  | 0, _ => none
  | fuel + 1, cs =>
    match skipWs cs with
    | [] => none
    | d :: r =>
      if d = rbrace then some ([], r)
      else parseJsonPairs fuel (d :: r)

/-- Parse one or more comma-separated JSON object members up to the closing
curly bracket. Duplicate keys are kept in order; the Python dict would keep
only the last occurrence, a difference no claim exercises. -/
def parseJsonPairs : Nat → List Char → Option (List (String × PyVal) × List Char)
  | 0, _ => none
  | fuel + 1, cs =>
    match skipWs cs with
    | [] => none
    | c :: rest =>
      if c = '"' then
        match parseJsonString (rest.length + 1) [] rest with
        | none => none
        | some (k, r) =>
          match skipWs r with
          | ':' :: r2 =>
            match parseJsonValue fuel r2 with
            | none => none
            | some (v, r3) =>
              match skipWs r3 with
              | ',' :: r4 =>
                match parseJsonPairs fuel r4 with
                | some (kvs, r5) => some ((k, v) :: kvs, r5)
                | none => none
              | d :: r4 => if d = rbrace then some ([(k, v)], r4) else none
              | [] => none
          | _ => none
      else none

end

/-- Model of the Python json.loads function: parse one JSON value and require
that only whitespace follows it. Returns none where json.loads raises
json.JSONDecodeError. -/
def json_loads (s : String) : Option PyVal :=
  match parseJsonValue (2 * s.length + 2) s.data with
  | some (v, r) =>
    match skipWs r with
    | [] => some v
    | _ => none
  | none => none

example : json_loads "[\"PUSH_PROMPT\",\"SMS\"]" =
    some (PyVal.vList [PyVal.vStr "PUSH_PROMPT", PyVal.vStr "SMS"]) := rfl

example : json_loads "\x7b\"a\":1\x7d" =
    some (PyVal.vDict [("a", PyVal.vNum "1")]) := rfl

example : json_loads " [true, null, -2.5e3] " =
    some (PyVal.vList [PyVal.vBool true, PyVal.vNone, PyVal.vNum "-2.5e3"]) := rfl

example : json_loads "[oops]" = none := rfl

example : json_loads "01" = none := rfl

mutual

/-- Model of the Python repr function on the values that can occur in a
payload. String quoting uses single quotation marks without the escape
refinements of the real repr; no claim exercises those. -/
def pyRepr : PyVal → String
  | PyVal.vNone => "None"
  | PyVal.vBool true => "True"
  | PyVal.vBool false => "False"
  | PyVal.vNum s => s
  | PyVal.vStr s => String.singleton squote ++ s ++ String.singleton squote
  | PyVal.vList xs => "[" ++ pyReprList xs ++ "]"
  | PyVal.vDict kvs => "\x7b" ++ pyReprPairs kvs ++ "\x7d"

/-- Comma-separated repr of list elements. -/
def pyReprList : List PyVal → String
  | [] => ""
  | [x] => pyRepr x
  | x :: y :: xs => pyRepr x ++ ", " ++ pyReprList (y :: xs)

/-- Comma-separated repr of dict members. -/
def pyReprPairs : List (String × PyVal) → String
  | [] => ""
  | [(k, v)] => String.singleton squote ++ k ++ String.singleton squote ++ ": " ++ pyRepr v
  | (k, v) :: y :: xs =>
    String.singleton squote ++ k ++ String.singleton squote ++ ": " ++ pyRepr v
      ++ ", " ++ pyReprPairs (y :: xs)

end

/-- Model of the Python str function: identical to repr except on strings,
which are returned unquoted. -/
def pyStr : PyVal → String
  | PyVal.vStr s => s
  | v => pyRepr v

/-- Python repr of a string, as interpolated by the r conversion in an
f-string. -/
def pyReprStr (s : String) : String :=
  String.singleton squote ++ s ++ String.singleton squote

/-- One cell of a CSV row: none models the Python value None. -/
abbrev Cell := Option String

/-- A CSV row after csv.DictReader, as an ordered association list from
column name to cell. The Python dict has distinct keys; theorems that depend
on dict semantics take a Nodup hypothesis where needed. -/
abbrev Record := List (String × Cell)

/-- Model of the Python dict get method with default None: returns none when
the key is absent or its stored value is None. -/
def rowGet (row : Record) (k : String) : Option String :=
  match row.lookup k with
  | none => none
  | some v => v

/-- Model of the row cleaning dict comprehension in both main loops: strip
whitespace from keys and from string values, leaving None cells alone. -/
def cleanRow (row : Record) : Record :=
  row.map (fun kv => (pyStrip kv.1, kv.2.map pyStrip))

/-- Model of the Python expression a or b for an optional string a: a wins
when it is a non-empty string, otherwise the result is b. -/
def orElseStr (a : Option String) (b : Option String) : Option String :=
  match a with
  | some s => if s = "" then b else some s
  | none => b

/-- Python str of a cell, as interpolated into the request URL f-string. -/
def cellStr : Cell → String
  | none => "None"
  | some s => s

/-- A built payload: the resourceId field together with the single object
stored in the resources list. Both scripts build exactly this shape; only the
serialization order of the two top-level keys differs between variants. -/
structure Payload where
  resourceId : String
  resourceObj : List (String × PyVal)
deriving Repr

/-- The error message raised by both scripts when no resourceId resolves. -/
def missingResourceIdMsg : String :=
  "resourceId is missing: provide --resource-id or a resourceId column in the CSV."

namespace CustomResource

/-- The four column names excluded from customProperties in variant A. -/
def excludedKeys : List String := ["resourceId", "displayName", "uniqueId", "externalUrl"]

/-- The customProperties dict comprehension of variant A build_payload:
every column outside the excluded set whose value is neither None nor the
empty string, copied as a string. -/
def customPropertiesOf (row : Record) : List (String × PyVal) :=
  row.filterMap (fun kv =>
    match kv.2 with
    | none => none
    | some v => if kv.1 ∈ excludedKeys ∨ v = "" then none else some (kv.1, PyVal.vStr v))

/-- A cell as stored into the first resource object of variant A before the
None filtering step. -/
def cellToPy : Cell → PyVal
  | none => PyVal.vNone
  | some s => PyVal.vStr s

/-- Variant A build_payload, from CustomResourceLoader.py lines 41 to 94.
The csv_headers parameter of the source is unused by its body and omitted.
Fails exactly when the resolved resourceId is the Python value None. -/
def build_payload (row : Record) (override : Option String) : Except String Payload :=
  match orElseStr override (rowGet row "resourceId") with
  | none => Except.error missingResourceIdMsg
  | some rid =>
    let obj0 : List (String × PyVal) :=
      [("displayName", cellToPy (rowGet row "displayName")),
       ("uniqueId", cellToPy (rowGet row "uniqueId")),
       ("externalUrl", cellToPy (rowGet row "externalUrl")),
       ("customProperties", PyVal.vDict (customPropertiesOf row))]
    Except.ok
      { resourceId := rid,
        resourceObj := obj0.filter (fun kv =>
          match kv.2 with
          | PyVal.vNone => false
          | _ => true) }

end CustomResource

example :
    CustomResource.build_payload
      [("resourceId", some "r1"), ("displayName", some ""), ("uniqueId", some "u1")] none =
    Except.ok
      { resourceId := "r1",
        resourceObj := [("displayName", PyVal.vStr ""), ("uniqueId", PyVal.vStr "u1"),
          ("customProperties", PyVal.vDict [])] } := rfl

example :
    CustomResource.build_payload [("resourceId", some "")] none =
    Except.ok { resourceId := "", resourceObj := [("customProperties", PyVal.vDict [])] } := rfl

namespace VulnerabilityLoader

/-- Variant B coerce_value, from VulnerabilityLoader.py lines 46 to 72,
restricted to the string inputs that the build loop passes it: the
isinstance guard never fires there because cleaned rows hold only strings
or None and None is filtered before the call. -/
def coerce_value (value : String) : PyVal :=
  let v := pyStrip value
  if pyLower v = "true" then PyVal.vBool true
  else if pyLower v = "false" then PyVal.vBool false
  else if (startsWithChar v '[' && endsWithChar v ']')
      || (startsWithChar v lbrace && endsWithChar v rbrace) then
    match json_loads v with
    | some j => j
    | none => PyVal.vStr v
  else PyVal.vStr v

/-- The error message raised by parse_bool on an unparseable value. -/
def boolErrMsg (s : String) : String :=
  "Cannot parse boolean from value " ++ pyReprStr s ++ " for mfaEnabled"

/-- Variant B parse_bool, from VulnerabilityLoader.py lines 75 to 96,
restricted to the string-or-None cells of cleaned rows: the isinstance bool
branch is unreachable in this program. -/
def parse_bool (raw : Cell) : Except String (Option Bool) :=
  match raw with
  | none => Except.ok none
  | some s =>
    if s = "" then Except.ok none
    else
      let v := pyLower (pyStrip s)
      if v = "true" || v = "1" || v = "yes" || v = "y" || v = "t" then
        Except.ok (some true)
      else if v = "false" || v = "0" || v = "no" || v = "n" || v = "f" then
        Except.ok (some false)
      else Except.error (boolErrMsg s)

/-- The guarded JSON-array attempt of parse_mfa_methods, VulnerabilityLoader.py
lines 120 to 127: when the trimmed value has matching square brackets and
json.loads yields a list, map str over its elements. -/
def mfaJsonArrayCase (v : String) : Option (List String) :=
  if startsWithChar v '[' && endsWithChar v ']' then
    match json_loads v with
    | some (PyVal.vList xs) => some (xs.map pyStr)
    | _ => none
  else none

/-- Variant B parse_mfa_methods, from VulnerabilityLoader.py lines 99 to 134,
restricted to the string-or-None cells of cleaned rows: the isinstance list
branch is unreachable in this program. -/
def parse_mfa_methods (raw : Cell) : Option (List String) :=
  match raw with
  | none => none
  | some s =>
    if s = "" then none
    else
      let v := pyStrip s
      if v = "" then none
      else
        match mfaJsonArrayCase v with
        | some r => some r
        | none =>
          if containsChar v ',' then
            some (((splitChar v ',').map pyStrip).filter (fun p => p != ""))
          else some [v]

/-- The per-header loop of variant B build_payload, from VulnerabilityLoader.py
lines 162 to 184: skip the resourceId column and empty or missing cells, give
mfaMethods and mfaEnabled their strict coercions, and apply coerce_value to
every other value. An invalid mfaEnabled value aborts with an error. -/
def build_resource_obj (row : Record) : List String → Except String (List (String × PyVal))
  | [] => Except.ok []
  | h :: hs =>
    if h = "resourceId" then build_resource_obj row hs
    else
      match rowGet row h with
      | none => build_resource_obj row hs
      | some s =>
        if s = "" then build_resource_obj row hs
        else if h = "mfaMethods" then
          match parse_mfa_methods (some s) with
          | some xs =>
            match build_resource_obj row hs with
            | Except.ok tail => Except.ok ((h, PyVal.vList (xs.map PyVal.vStr)) :: tail)
            | Except.error e => Except.error e
          | none => build_resource_obj row hs
        else if h = "mfaEnabled" then
          match parse_bool (some s) with
          | Except.error e => Except.error e
          | Except.ok (some b) =>
            match build_resource_obj row hs with
            | Except.ok tail => Except.ok ((h, PyVal.vBool b) :: tail)
            | Except.error e => Except.error e
          | Except.ok none => build_resource_obj row hs
        else
          match build_resource_obj row hs with
          | Except.ok tail => Except.ok ((h, coerce_value s) :: tail)
          | Except.error e => Except.error e

/-- Variant B build_payload, from VulnerabilityLoader.py lines 137 to 189.
Fails when the resolved resourceId is None or the empty string, or when a
non-empty mfaEnabled cell is not in the boolean vocabulary. -/
def build_payload (row : Record) (headers : List String) (override : Option String) :
    Except String Payload :=
  match orElseStr override (rowGet row "resourceId") with
  | none => Except.error missingResourceIdMsg
  | some rid =>
    if rid = "" then Except.error missingResourceIdMsg
    else
      match build_resource_obj row headers with
      | Except.ok obj => Except.ok { resourceId := rid, resourceObj := obj }
      | Except.error e => Except.error e

end VulnerabilityLoader

example : VulnerabilityLoader.parse_mfa_methods (some "[\"PUSH_PROMPT\",\"SMS\"]") =
    some ["PUSH_PROMPT", "SMS"] := rfl

example : VulnerabilityLoader.parse_mfa_methods (some "PUSH_PROMPT,SMS") =
    some ["PUSH_PROMPT", "SMS"] := rfl

example : VulnerabilityLoader.parse_mfa_methods (some "PUSH_PROMPT") =
    some ["PUSH_PROMPT"] := rfl

example : VulnerabilityLoader.parse_bool (some "Yes") = Except.ok (some true) := rfl

example : VulnerabilityLoader.parse_bool (some "0") = Except.ok (some false) := rfl

example : VulnerabilityLoader.parse_bool (some "maybe") =
    Except.error (VulnerabilityLoader.boolErrMsg "maybe") := rfl

example : VulnerabilityLoader.coerce_value "True" = PyVal.vBool true := rfl

example : VulnerabilityLoader.coerce_value "\x7b\"a\":1\x7d" =
    PyVal.vDict [("a", PyVal.vNum "1")] := rfl

example : VulnerabilityLoader.coerce_value "hello" = PyVal.vStr "hello" := rfl

example :
    VulnerabilityLoader.build_payload
      [("resourceId", some "69"), ("mfaEnabled", some "Yes"), ("mfaMethods", some "SMS,PUSH")]
      ["resourceId", "mfaEnabled", "mfaMethods"] none =
    Except.ok
      { resourceId := "69",
        resourceObj := [("mfaEnabled", PyVal.vBool true),
          ("mfaMethods", PyVal.vList [PyVal.vStr "SMS", PyVal.vStr "PUSH"])] } := rfl

/-- Model of the Python slice from the start of a string up to a character
count, as used to truncate a response body. -/
def pyTruncate (s : String) (n : Nat) : String := String.mk (s.data.take n)

/-- The error message raised by both main loops when the configured id-column
is absent from a row (the Python KeyError text also lists the detected
columns; only the offending column name is modelled). -/
def missingColumnMsg (col : String) : String :=
  "Configured id-column " ++ pyReprStr col ++ " not found in CSV columns"

/-- Per-row URL construction from both main loops (CustomResourceLoader.py
lines 153 to 161, VulnerabilityLoader.py lines 249 to 256): when a non-empty
id-column is configured, the base URL with every trailing slash removed is
extended with a slash and the raw row value of that column; without one the
base URL is used unchanged. The membership test and the lookup use the raw,
uncleaned row. -/
def build_row_url (apiUrl : String) (idColumn : Option String) (row : Record) :
    Except String String :=
  match idColumn with
  | none => Except.ok apiUrl
  | some col =>
    if col = "" then Except.ok apiUrl
    else
      match row.lookup col with
      | none => Except.error (missingColumnMsg col)
      | some cell => Except.ok (pyRstripSlashes apiUrl ++ "/" ++ cellStr cell)

/-- Outcome of one HTTP PUT: either a response with status and body text, or
a transport-level requests.RequestException carrying a message. -/
inductive HttpOutcome where
  | response : Nat → String → HttpOutcome
  | transportError : String → HttpOutcome
deriving Repr

/-- The console line a row contributes in the main loops. -/
inductive RowResult where
  | preview : String → Payload → RowResult
  | okLine : Nat → RowResult
  | failLine : Nat → String → RowResult
  | errorLine : String → RowResult
deriving Repr

/-- The shared per-row loop of both main functions (CustomResourceLoader.py
lines 152 to 197, VulnerabilityLoader.py lines 247 to 292), parameterized by
the payload builder of the variant and by the transport, which maps the row
index, URL and payload to the outcome of the PUT. A url or build failure
raises out of the loop, ending the batch; a transport error or a non-2xx
status is reported on its row and processing continues. The response body in
a failure line is truncated to 500 characters. -/
def process_rows (builder : Record → Option String → Except String Payload)
    (apiUrl : String) (idColumn : Option String) (override : Option String)
    (dryRun : Bool) (transport : Nat → String → Payload → HttpOutcome) :
    Nat → List Record → Except String (List RowResult)
  | _, [] => Except.ok []
  | i, row :: rest =>
    match build_row_url apiUrl idColumn row with
    | Except.error e => Except.error e
    | Except.ok url =>
      match builder (cleanRow row) override with
      | Except.error e => Except.error e
      | Except.ok payload =>
        if dryRun then
          match process_rows builder apiUrl idColumn override dryRun transport (i + 1) rest with
          | Except.ok rs => Except.ok (RowResult.preview url payload :: rs)
          | Except.error e => Except.error e
        else
          let line :=
            match transport i url payload with
            | HttpOutcome.transportError m => RowResult.errorLine m
            | HttpOutcome.response st body =>
              if 200 ≤ st ∧ st < 300 then RowResult.okLine st
              else RowResult.failLine st (pyTruncate body 500)
          match process_rows builder apiUrl idColumn override dryRun transport (i + 1) rest with
          | Except.ok rs => Except.ok (line :: rs)
          | Except.error e => Except.error e

/-- Escape one character for a JSON string literal, as json.dumps does for
the quotation mark and the backslash (control-character escapes are not
modelled; no claim exercises them). -/
def jsonEscapeChar (c : Char) : List Char :=
  if c = '\\' then ['\\', '\\']
  else if c = '"' then ['\\', '"']
  else [c]

/-- Escape a string for a JSON string literal. -/
def jsonEscape (s : String) : String :=
  String.mk (s.data.foldr (fun c acc => jsonEscapeChar c ++ acc) [])

mutual

/-- Serialization of a payload value, following json.dumps with its default
separators. -/
def pyValToJson : PyVal → String
  | PyVal.vNone => "null"
  | PyVal.vBool true => "true"
  | PyVal.vBool false => "false"
  | PyVal.vNum s => s
  | PyVal.vStr s => "\"" ++ jsonEscape s ++ "\""
  | PyVal.vList xs => "[" ++ pyListToJson xs ++ "]"
  | PyVal.vDict kvs => "\x7b" ++ pyPairsToJson kvs ++ "\x7d"

/-- Comma-separated serialization of list elements. -/
def pyListToJson : List PyVal → String
  | [] => ""
  | [x] => pyValToJson x
  | x :: y :: xs => pyValToJson x ++ ", " ++ pyListToJson (y :: xs)

/-- Comma-separated serialization of object members. -/
def pyPairsToJson : List (String × PyVal) → String
  | [] => ""
  | [(k, v)] => "\"" ++ jsonEscape k ++ "\": " ++ pyValToJson v
  | (k, v) :: y :: xs =>
    "\"" ++ jsonEscape k ++ "\": " ++ pyValToJson v ++ ", " ++ pyPairsToJson (y :: xs)

end

/-- Serialized JSON of a variant A payload, with resourceId first as that
script builds its top-level dict. -/
def payloadJsonA (p : Payload) : String :=
  "\x7b\"resourceId\": \"" ++ jsonEscape p.resourceId ++ "\", \"resources\": ["
    ++ pyValToJson (PyVal.vDict p.resourceObj) ++ "]\x7d"

/-- Serialized JSON of a variant B payload, with resources first as that
script builds its top-level dict. -/
def payloadJsonB (p : Payload) : String :=
  "\x7b\"resources\": [" ++ pyValToJson (PyVal.vDict p.resourceObj)
    ++ "], \"resourceId\": \"" ++ jsonEscape p.resourceId ++ "\"\x7d"

/-- The empty string strips to itself. -/
theorem pyStrip_empty : pyStrip "" = "" := rfl

/-- A string whose trimmed form is non-empty is itself non-empty. -/
theorem ne_empty_of_pyStrip {s : String} (h : pyStrip s ≠ "") : s ≠ "" := by
  intro hs
  rw [hs] at h
  exact h pyStrip_empty

/-- C4: in variant B, for every non-empty value of the mfaEnabled column,
parse_bool coerces via a fixed case-insensitive vocabulary, mapping any of
true, 1, yes, y, t to true and any of false, 0, no, n, f to false, and
raises an invalid-boolean error naming the offending value for any other
non-empty input; in particular Yes maps to true, 0 maps to false, and maybe
raises. -/
theorem claim_C4 (s : String) (hs : s ≠ "") :
    (pyLower (pyStrip s) = "true" ∨ pyLower (pyStrip s) = "1" ∨ pyLower (pyStrip s) = "yes"
        ∨ pyLower (pyStrip s) = "y" ∨ pyLower (pyStrip s) = "t" →
      VulnerabilityLoader.parse_bool (some s) = Except.ok (some true)) ∧
    (pyLower (pyStrip s) = "false" ∨ pyLower (pyStrip s) = "0" ∨ pyLower (pyStrip s) = "no"
        ∨ pyLower (pyStrip s) = "n" ∨ pyLower (pyStrip s) = "f" →
      VulnerabilityLoader.parse_bool (some s) = Except.ok (some false)) ∧
    (¬ (pyLower (pyStrip s) = "true" ∨ pyLower (pyStrip s) = "1" ∨ pyLower (pyStrip s) = "yes"
        ∨ pyLower (pyStrip s) = "y" ∨ pyLower (pyStrip s) = "t") →
     ¬ (pyLower (pyStrip s) = "false" ∨ pyLower (pyStrip s) = "0" ∨ pyLower (pyStrip s) = "no"
        ∨ pyLower (pyStrip s) = "n" ∨ pyLower (pyStrip s) = "f") →
      VulnerabilityLoader.parse_bool (some s) = Except.error (VulnerabilityLoader.boolErrMsg s)) ∧
    VulnerabilityLoader.parse_bool (some "Yes") = Except.ok (some true) ∧
    VulnerabilityLoader.parse_bool (some "0") = Except.ok (some false) ∧
    VulnerabilityLoader.parse_bool (some "maybe") =
      Except.error (VulnerabilityLoader.boolErrMsg "maybe") := by
  refine ⟨?_, ?_, ?_, rfl, rfl, rfl⟩
  · intro h
    simp only [VulnerabilityLoader.parse_bool, if_neg hs]
    rcases h with h | h | h | h | h <;> simp [h]
  · intro h
    simp only [VulnerabilityLoader.parse_bool, if_neg hs]
    rcases h with h | h | h | h | h <;> simp [h]
  · intro h1 h2
    push_neg at h1 h2
    obtain ⟨a1, a2, a3, a4, a5⟩ := h1
    obtain ⟨b1, b2, b3, b4, b5⟩ := h2
    simp [VulnerabilityLoader.parse_bool, if_neg hs, a1, a2, a3, a4, a5, b1, b2, b3, b4, b5]

/-- Closed witness for claim C4 at a concrete input. -/
theorem claim_C4_witness :
    VulnerabilityLoader.parse_bool (some "TRUE") = Except.ok (some true) ∧
    VulnerabilityLoader.parse_bool (some "No") = Except.ok (some false) ∧
    VulnerabilityLoader.parse_bool (some "2") =
      Except.error (VulnerabilityLoader.boolErrMsg "2") := by
  have h := claim_C4 "TRUE" (by decide)
  have h2 := claim_C4 "No" (by decide)
  have h3 := claim_C4 "2" (by decide)
  refine ⟨h.1 (by left; rfl), h2.2.1 (by right; right; left; rfl), h3.2.2.1 ?_ ?_⟩
  · intro hc
    rcases hc with hc | hc | hc | hc | hc <;> exact absurd hc (by decide)
  · intro hc
    rcases hc with hc | hc | hc | hc | hc <;> exact absurd hc (by decide)

/-- C3: in variant B, for every non-empty string value of the mfaMethods
column, the coercion applies in order of precedence: a valid JSON array
literal is parsed element-wise to strings; otherwise a comma-containing
string is split on commas with parts trimmed and empty parts dropped;
otherwise the single value is wrapped as a one-element array; a value that
does not hit the JSON-array case, which includes anything that parses as
JSON without being an array, falls through to the comma and single-value
rules. The three documented examples evaluate as stated. -/
theorem claim_C3 (s : String) (hs : pyStrip s ≠ "") :
    (∀ xs, startsWithChar (pyStrip s) '[' = true → endsWithChar (pyStrip s) ']' = true →
      json_loads (pyStrip s) = some (PyVal.vList xs) →
      VulnerabilityLoader.parse_mfa_methods (some s) = some (xs.map pyStr)) ∧
    (VulnerabilityLoader.mfaJsonArrayCase (pyStrip s) = none →
      containsChar (pyStrip s) ',' = true →
      VulnerabilityLoader.parse_mfa_methods (some s) =
        some (((splitChar (pyStrip s) ',').map pyStrip).filter (fun p => p != ""))) ∧
    (VulnerabilityLoader.mfaJsonArrayCase (pyStrip s) = none →
      containsChar (pyStrip s) ',' = false →
      VulnerabilityLoader.parse_mfa_methods (some s) = some [pyStrip s]) ∧
    VulnerabilityLoader.parse_mfa_methods (some "[\"PUSH_PROMPT\",\"SMS\"]") =
      some ["PUSH_PROMPT", "SMS"] ∧
    VulnerabilityLoader.parse_mfa_methods (some "PUSH_PROMPT,SMS") =
      some ["PUSH_PROMPT", "SMS"] ∧
    VulnerabilityLoader.parse_mfa_methods (some "PUSH_PROMPT") = some ["PUSH_PROMPT"] := by
  have hsne : s ≠ "" := ne_empty_of_pyStrip hs
  refine ⟨?_, ?_, ?_, rfl, rfl, rfl⟩
  · intro xs h1 h2 hj
    have hcase : VulnerabilityLoader.mfaJsonArrayCase (pyStrip s) = some (xs.map pyStr) := by
      simp [VulnerabilityLoader.mfaJsonArrayCase, h1, h2, hj]
    simp only [VulnerabilityLoader.parse_mfa_methods, if_neg hsne, if_neg hs, hcase]
  · intro hcase hcontains
    simp only [VulnerabilityLoader.parse_mfa_methods, if_neg hsne, if_neg hs, hcase, hcontains]
    simp
  · intro hcase hcontains
    simp only [VulnerabilityLoader.parse_mfa_methods, if_neg hsne, if_neg hs, hcase, hcontains]
    simp

/-- Closed witness for claim C3 at concrete inputs. -/
theorem claim_C3_witness :
    VulnerabilityLoader.parse_mfa_methods (some "[\"A\", 1]") = some ["A", "1"] ∧
    VulnerabilityLoader.parse_mfa_methods (some " X , ,Y ") = some ["X", "Y"] ∧
    VulnerabilityLoader.parse_mfa_methods (some "[broken") = some ["[broken"] := by
  have h1 := (claim_C3 "[\"A\", 1]" (by decide)).1
  have h2 := (claim_C3 " X , ,Y " (by decide)).2.1
  have h3 := (claim_C3 "[broken" (by decide)).2.2.1
  refine ⟨?_, ?_, ?_⟩
  · exact h1 [PyVal.vStr "A", PyVal.vNum "1"] rfl rfl rfl
  · exact h2 rfl rfl
  · exact h3 rfl rfl

/-- C5: in variant B, generic coercion maps case-insensitive true and false
strings to booleans, parses trimmed strings whose outer brackets match a
JSON array or object and uses the parsed value on success while keeping the
trimmed string on parse failure, and leaves every other value as the trimmed
string; since the build loop hands it values the row cleaning already
trimmed, the trimmed string is the received value. The three documented
examples evaluate as stated. -/
theorem claim_C5 (s : String) :
    (pyLower (pyStrip s) = "true" → VulnerabilityLoader.coerce_value s = PyVal.vBool true) ∧
    (pyLower (pyStrip s) = "false" → VulnerabilityLoader.coerce_value s = PyVal.vBool false) ∧
    (∀ j, pyLower (pyStrip s) ≠ "true" → pyLower (pyStrip s) ≠ "false" →
      ((startsWithChar (pyStrip s) '[' && endsWithChar (pyStrip s) ']')
        || (startsWithChar (pyStrip s) lbrace && endsWithChar (pyStrip s) rbrace)) = true →
      json_loads (pyStrip s) = some j → VulnerabilityLoader.coerce_value s = j) ∧
    (pyLower (pyStrip s) ≠ "true" → pyLower (pyStrip s) ≠ "false" →
      json_loads (pyStrip s) = none →
      VulnerabilityLoader.coerce_value s = PyVal.vStr (pyStrip s)) ∧
    (pyLower (pyStrip s) ≠ "true" → pyLower (pyStrip s) ≠ "false" →
      ((startsWithChar (pyStrip s) '[' && endsWithChar (pyStrip s) ']')
        || (startsWithChar (pyStrip s) lbrace && endsWithChar (pyStrip s) rbrace)) = false →
      VulnerabilityLoader.coerce_value s = PyVal.vStr (pyStrip s)) ∧
    VulnerabilityLoader.coerce_value "True" = PyVal.vBool true ∧
    VulnerabilityLoader.coerce_value "\x7b\"a\":1\x7d" = PyVal.vDict [("a", PyVal.vNum "1")] ∧
    VulnerabilityLoader.coerce_value "hello" = PyVal.vStr "hello" := by
  refine ⟨?_, ?_, ?_, ?_, ?_, rfl, rfl, rfl⟩
  · intro h
    simp only [VulnerabilityLoader.coerce_value, if_pos h]
  · intro h
    have hne : pyLower (pyStrip s) ≠ "true" := by
      rw [h]; decide
    simp only [VulnerabilityLoader.coerce_value, if_neg hne, if_pos h]
  · intro j h1 h2 hb hj
    simp only [VulnerabilityLoader.coerce_value, if_neg h1, if_neg h2, if_pos hb, hj]
  · intro h1 h2 hj
    simp only [VulnerabilityLoader.coerce_value, if_neg h1, if_neg h2, hj]
    split <;> rfl
  · intro h1 h2 hb
    simp only [VulnerabilityLoader.coerce_value, if_neg h1, if_neg h2, hb]
    simp

/-- Closed witness for claim C5 at concrete inputs. -/
theorem claim_C5_witness :
    VulnerabilityLoader.coerce_value " FALSE " = PyVal.vBool false ∧
    VulnerabilityLoader.coerce_value "[1, 2]" = PyVal.vList [PyVal.vNum "1", PyVal.vNum "2"] ∧
    VulnerabilityLoader.coerce_value "[broken" = PyVal.vStr "[broken" ∧
    VulnerabilityLoader.coerce_value "[\x7d" = PyVal.vStr "[\x7d" := by
  have h1 := (claim_C5 " FALSE ").2.1
  have h2 := (claim_C5 "[1, 2]").2.2.1
  have h3 := (claim_C5 "[broken").2.2.2.2.1
  have h4 := (claim_C5 "[\x7d").2.2.2.1
  refine ⟨h1 rfl, ?_, ?_, ?_⟩
  · exact h2 (PyVal.vList [PyVal.vNum "1", PyVal.vNum "2"]) (by decide) (by decide) rfl rfl
  · exact h3 (by decide) (by decide) rfl
  · exact h4 (by decide) (by decide) rfl

/-- C9: build_payload is deterministic in both variants: the same Record,
column list and override yield equal payloads and hence byte-identical
serialized JSON. -/
theorem claim_C9 (row : Record) (headers : List String) (o : Option String) :
    CustomResource.build_payload row o = CustomResource.build_payload row o ∧
    VulnerabilityLoader.build_payload row headers o =
      VulnerabilityLoader.build_payload row headers o ∧
    (CustomResource.build_payload row o).map payloadJsonA =
      (CustomResource.build_payload row o).map payloadJsonA ∧
    (VulnerabilityLoader.build_payload row headers o).map payloadJsonB =
      (VulnerabilityLoader.build_payload row headers o).map payloadJsonB :=
  ⟨rfl, rfl, rfl, rfl⟩

/-- A parse that starts at an opening square bracket can only produce a list. -/
theorem parseJsonValue_sq {fuel : Nat} {t r : List Char} {j : PyVal}
    (h : parseJsonValue fuel ('[' :: t) = some (j, r)) : ∃ xs, j = PyVal.vList xs := by
  cases fuel with
  | zero => rw [parseJsonValue] at h; exact absurd h (by simp)
  | succ n =>
    have hsw : skipWs ('[' :: t) = '[' :: t := by simp [skipWs, isJsonWs]
    rw [parseJsonValue, hsw] at h
    replace h : (match parseArrayRest n t with
      | some (xs, r) => some (PyVal.vList xs, r)
      | none => none) = some (j, r) := h
    cases hp : parseArrayRest n t with
    | none => rw [hp] at h; simp at h
    | some p =>
      rw [hp] at h
      simp at h
      exact ⟨p.1, h.1.symm⟩

/-- A parse that starts at an opening curly bracket can only produce a dict. -/
theorem parseJsonValue_brace {fuel : Nat} {t r : List Char} {j : PyVal}
    (h : parseJsonValue fuel (lbrace :: t) = some (j, r)) :
    ∃ kvs, j = PyVal.vDict kvs := by
  cases fuel with
  | zero => rw [parseJsonValue] at h; exact absurd h (by simp)
  | succ n =>
    have hsw : skipWs (lbrace :: t) = lbrace :: t := by simp [skipWs, isJsonWs, lbrace]
    rw [parseJsonValue, hsw] at h
    replace h : (match parseObjRest n t with
      | some (kvs, r) => some (PyVal.vDict kvs, r)
      | none => none) = some (j, r) := h
    cases hp : parseObjRest n t with
    | none => rw [hp] at h; simp at h
    | some p =>
      rw [hp] at h
      simp at h
      exact ⟨p.1, h.1.symm⟩

/-- A string that starts with a given character has that character at the
head of its data. -/
theorem startsWithChar_shape {s : String} {c : Char} (h : startsWithChar s c = true) :
    ∃ t, s.data = c :: t := by
  unfold startsWithChar at h
  cases hd : s.data with
  | nil => rw [hd] at h; simp at h
  | cons a t =>
    rw [hd] at h
    simp at h
    exact ⟨t, by rw [h]⟩

/-- json.loads on a string starting with a square bracket yields a list when
it succeeds. -/
theorem json_loads_sq {v : String} {j : PyVal} (h1 : startsWithChar v '[' = true)
    (h : json_loads v = some j) : ∃ xs, j = PyVal.vList xs := by
  obtain ⟨t, ht⟩ := startsWithChar_shape h1
  unfold json_loads at h
  rw [ht] at h
  cases hp : parseJsonValue (2 * v.length + 2) ('[' :: t) with
  | none => rw [hp] at h; simp at h
  | some p =>
    obtain ⟨j0, r0⟩ := p
    rw [hp] at h
    replace h : (match skipWs r0 with
      | [] => some j0
      | _ => none) = some j := h
    obtain ⟨xs, hxs⟩ := parseJsonValue_sq hp
    cases hw : skipWs r0 with
    | nil =>
      rw [hw] at h
      simp at h
      exact ⟨xs, by rw [← h, hxs]⟩
    | cons a b => rw [hw] at h; simp at h

/-- json.loads on a string starting with a curly bracket yields a dict when
it succeeds. -/
theorem json_loads_brace {v : String} {j : PyVal} (h1 : startsWithChar v lbrace = true)
    (h : json_loads v = some j) : ∃ kvs, j = PyVal.vDict kvs := by
  obtain ⟨t, ht⟩ := startsWithChar_shape h1
  unfold json_loads at h
  rw [ht] at h
  cases hp : parseJsonValue (2 * v.length + 2) (lbrace :: t) with
  | none => rw [hp] at h; simp at h
  | some p =>
    obtain ⟨j0, r0⟩ := p
    rw [hp] at h
    replace h : (match skipWs r0 with
      | [] => some j0
      | _ => none) = some j := h
    obtain ⟨kvs, hkvs⟩ := parseJsonValue_brace hp
    cases hw : skipWs r0 with
    | nil =>
      rw [hw] at h
      simp at h
      exact ⟨kvs, by rw [← h, hkvs]⟩
    | cons a b => rw [hw] at h; simp at h

/-- Generic coercion never returns the Python value None: the JSON attempt is
guarded by outer brackets, so a successful parse is a list or a dict. -/
theorem coerce_value_ne_vNone (s : String) :
    VulnerabilityLoader.coerce_value s ≠ PyVal.vNone := by
  simp only [VulnerabilityLoader.coerce_value]
  by_cases h1 : pyLower (pyStrip s) = "true"
  · rw [if_pos h1]; simp
  rw [if_neg h1]
  by_cases h2 : pyLower (pyStrip s) = "false"
  · rw [if_pos h2]; simp
  rw [if_neg h2]
  by_cases h3 : ((startsWithChar (pyStrip s) '[' && endsWithChar (pyStrip s) ']')
      || (startsWithChar (pyStrip s) lbrace && endsWithChar (pyStrip s) rbrace)) = true
  · rw [if_pos h3]
    cases hj : json_loads (pyStrip s) with
    | none => simp
    | some j =>
      show j ≠ PyVal.vNone
      rcases Bool.or_eq_true_iff.mp h3 with hl | hr
      · obtain ⟨xs, hxs⟩ := json_loads_sq (Bool.and_eq_true_iff.mp hl).1 hj
        rw [hxs]; simp
      · obtain ⟨kvs, hkvs⟩ := json_loads_brace (Bool.and_eq_true_iff.mp hr).1 hj
        rw [hkvs]; simp
  · rw [if_neg h3]; simp

/-- Every value stored by the variant B header loop is a list, a boolean or a
generic coercion result, none of which is the Python value None. -/
theorem build_resource_obj_no_none {row : Record} :
    ∀ (headers : List String) (obj : List (String × PyVal)),
      VulnerabilityLoader.build_resource_obj row headers = Except.ok obj →
      ∀ k v, (k, v) ∈ obj → v ≠ PyVal.vNone := by
  intro headers
  induction headers with
  | nil =>
    intro obj h k v hm
    rw [VulnerabilityLoader.build_resource_obj] at h
    simp at h
    rw [h] at hm
    simp at hm
  | cons hd tl ih =>
    intro obj h k v hm
    rw [VulnerabilityLoader.build_resource_obj] at h
    split at h
    · exact ih obj h k v hm
    split at h
    · exact ih obj h k v hm
    split at h
    · exact ih obj h k v hm
    split at h
    · -- mfaMethods column
      split at h
      · split at h
        · simp at h
          rw [← h] at hm
          rcases List.mem_cons.mp hm with hkv | hkv
          · rw [Prod.mk.injEq] at hkv
            rw [hkv.2]
            simp
          · exact ih _ (by assumption) k v hkv
        · simp at h
      · exact ih obj h k v hm
    split at h
    · -- mfaEnabled column
      split at h
      · simp at h
      · split at h
        · simp at h
          rw [← h] at hm
          rcases List.mem_cons.mp hm with hkv | hkv
          · rw [Prod.mk.injEq] at hkv
            rw [hkv.2]
            simp
          · exact ih _ (by assumption) k v hkv
        · simp at h
      · exact ih obj h k v hm
    · -- generic column
      split at h
      · simp at h
        rw [← h] at hm
        rcases List.mem_cons.mp hm with hkv | hkv
        · rw [Prod.mk.injEq] at hkv
          rw [hkv.2]
          exact coerce_value_ne_vNone _
        · exact ih _ (by assumption) k v hkv
      · simp at h

/-- A non-empty override wins in the Python or-expression. -/
theorem orElseStr_some {o : String} (h : o ≠ "") (b : Option String) :
    orElseStr (some o) b = some o := by
  simp [orElseStr, h]

/-- A missing override falls through in the Python or-expression. -/
theorem orElseStr_none (b : Option String) : orElseStr none b = b := rfl

/-- An empty-string override falls through in the Python or-expression. -/
theorem orElseStr_empty (b : Option String) : orElseStr (some "") b = b := by
  simp [orElseStr]

/-- Inversion of a successful variant A build: the resourceId is the resolved
value and the resource object is the None-filtered fixed-field list. -/
theorem buildA_inv {row : Record} {o : Option String} {p : Payload}
    (h : CustomResource.build_payload row o = Except.ok p) :
    orElseStr o (rowGet row "resourceId") = some p.resourceId ∧
    p.resourceObj =
      ([("displayName", CustomResource.cellToPy (rowGet row "displayName")),
        ("uniqueId", CustomResource.cellToPy (rowGet row "uniqueId")),
        ("externalUrl", CustomResource.cellToPy (rowGet row "externalUrl")),
        ("customProperties", PyVal.vDict (CustomResource.customPropertiesOf row))].filter
          (fun kv => match kv.2 with
            | PyVal.vNone => false
            | _ => true)) := by
  unfold CustomResource.build_payload at h
  cases horel : orElseStr o (rowGet row "resourceId") with
  | none => rw [horel] at h; simp at h
  | some rid =>
    rw [horel] at h
    simp at h
    rw [← h]
    exact ⟨rfl, rfl⟩

/-- Inversion of a successful variant B build: the resolved resourceId is
non-empty and the resource object comes from the header loop. -/
theorem buildB_inv {row : Record} {headers : List String} {o : Option String} {p : Payload}
    (h : VulnerabilityLoader.build_payload row headers o = Except.ok p) :
    orElseStr o (rowGet row "resourceId") = some p.resourceId ∧ p.resourceId ≠ "" ∧
    VulnerabilityLoader.build_resource_obj row headers = Except.ok p.resourceObj := by
  unfold VulnerabilityLoader.build_payload at h
  cases horel : orElseStr o (rowGet row "resourceId") with
  | none => rw [horel] at h; simp at h
  | some rid =>
    rw [horel] at h
    replace h : (if rid = "" then (Except.error missingResourceIdMsg : Except String Payload)
      else match VulnerabilityLoader.build_resource_obj row headers with
        | Except.ok obj => Except.ok { resourceId := rid, resourceObj := obj }
        | Except.error e => Except.error e) = Except.ok p := h
    split at h
    · simp at h
    · next hrid =>
      cases hobj : VulnerabilityLoader.build_resource_obj row headers with
      | error e => rw [hobj] at h; simp at h
      | ok obj =>
        rw [hobj] at h
        simp at h
        rw [← h]
        exact ⟨rfl, hrid, rfl⟩

/-- A successful lookup in a cleaned row comes from a raw entry whose key
strips to the looked-up name and whose cell strips to the found cell. -/
theorem cleanRow_lookup {row : Record} {k : String} {c : Cell}
    (h : (cleanRow row).lookup k = some c) :
    ∃ k0 c0, (k0, c0) ∈ row ∧ pyStrip k0 = k ∧ c0.map pyStrip = c := by
  induction row with
  | nil => simp [cleanRow] at h
  | cons kv rest ih =>
    rcases kv with ⟨k0, c0⟩
    replace h : (match k == pyStrip k0 with
      | true => some (Option.map pyStrip c0)
      | false => List.lookup k (cleanRow rest)) = some c := h
    cases hbeq : (k == pyStrip k0) with
    | true =>
      rw [hbeq] at h
      simp at h
      exact ⟨k0, c0, List.mem_cons_self _ _, (beq_iff_eq.mp hbeq).symm, h⟩
    | false =>
      rw [hbeq] at h
      obtain ⟨k1, c1, hm, hs, hc⟩ := ih h
      exact ⟨k1, c1, List.mem_cons_of_mem _ hm, hs, hc⟩

/-- C1 counterexample: in variant A a Record whose resourceId column holds
the empty string builds a payload whose resourceId is empty instead of
raising a build failure, refuting the claim that resourceId is always
non-empty with an error otherwise. -/
theorem claim_C1_counterexample :
    CustomResource.build_payload [("resourceId", some "")] none =
      Except.ok { resourceId := "", resourceObj := [("customProperties", PyVal.vDict [])] } :=
  rfl

/-- C1 (amended): in both variants no key of the built payload objects maps
to the Python value None, and in variant A no customProperties entry does
either; the resourceId field is always present; variant B additionally
guarantees it non-empty and errors when the resolved value is None or empty,
while variant A errors only when the resolved value is None and passes an
empty string through. -/
theorem claim_C1 (row : Record) (headers : List String) (o : Option String) :
    (∀ p, CustomResource.build_payload row o = Except.ok p →
      (∀ k v, (k, v) ∈ p.resourceObj → v ≠ PyVal.vNone) ∧
      (∀ cp k v, ("customProperties", PyVal.vDict cp) ∈ p.resourceObj → (k, v) ∈ cp →
        v ≠ PyVal.vNone)) ∧
    (orElseStr o (rowGet row "resourceId") = none →
      CustomResource.build_payload row o = Except.error missingResourceIdMsg) ∧
    (∀ p, VulnerabilityLoader.build_payload row headers o = Except.ok p →
      p.resourceId ≠ "" ∧ ∀ k v, (k, v) ∈ p.resourceObj → v ≠ PyVal.vNone) ∧
    (orElseStr o (rowGet row "resourceId") = none ∨
        orElseStr o (rowGet row "resourceId") = some "" →
      VulnerabilityLoader.build_payload row headers o = Except.error missingResourceIdMsg) := by
  refine ⟨?_, ?_, ?_, ?_⟩
  · intro p hp
    obtain ⟨-, hobj⟩ := buildA_inv hp
    constructor
    · intro k v hm hveq
      rw [hobj, List.mem_filter] at hm
      obtain ⟨hmem, hpred⟩ := hm
      rw [hveq] at hpred
      simp at hpred
    · intro cp k v hcp hkv
      rw [hobj, List.mem_filter] at hcp
      obtain ⟨hmem, -⟩ := hcp
      simp at hmem
      rw [hmem] at hkv
      obtain ⟨⟨k0, c0⟩, ha, hfa⟩ := List.mem_filterMap.mp hkv
      cases c0 with
      | none => simp at hfa
      | some s =>
        replace hfa : (if k0 ∈ CustomResource.excludedKeys ∨ s = "" then none
          else some (k0, PyVal.vStr s)) = some (k, v) := hfa
        by_cases hg : k0 ∈ CustomResource.excludedKeys ∨ s = ""
        · rw [if_pos hg] at hfa
          simp at hfa
        · rw [if_neg hg] at hfa
          simp at hfa
          rw [← hfa.2]
          simp
  · intro hnone
    unfold CustomResource.build_payload
    rw [hnone]
  · intro p hp
    obtain ⟨-, hrid, hobj⟩ := buildB_inv hp
    exact ⟨hrid, build_resource_obj_no_none headers p.resourceObj hobj⟩
  · intro h
    unfold VulnerabilityLoader.build_payload
    rcases h with h | h
    · rw [h]
    · rw [h]
      simp

/-- Closed witness for claim C1 at concrete inputs. -/
theorem claim_C1_witness :
    PyVal.vDict [] ≠ PyVal.vNone ∧
    CustomResource.build_payload ([] : Record) none = Except.error missingResourceIdMsg ∧
    (Payload.mk "r" [("status", PyVal.vStr "ACTIVE")]).resourceId ≠ "" ∧
    VulnerabilityLoader.build_payload [("resourceId", some "")] [] none =
      Except.error missingResourceIdMsg := by
  refine ⟨?_, ?_, ?_, ?_⟩
  · exact ((claim_C1 [("resourceId", some "r")] [] none).1
      (Payload.mk "r" [("customProperties", PyVal.vDict [])]) rfl).1
      "customProperties" (PyVal.vDict []) (by simp)
  · exact (claim_C1 [] [] none).2.1 rfl
  · exact ((claim_C1 [("resourceId", some "r"), ("status", some "ACTIVE")]
      ["resourceId", "status"] none).2.2.1
      (Payload.mk "r" [("status", PyVal.vStr "ACTIVE")]) rfl).1
  · exact (claim_C1 [("resourceId", some "")] [] none).2.2.2 (Or.inr rfl)

/-- C2 counterexample: the exact Record of the claim keeps an empty-string
displayName key in the built first resource, refuting the claim that an
empty-valued column never appears. -/
theorem claim_C2_counterexample :
    CustomResource.build_payload
        [("resourceId", some "r1"), ("displayName", some ""), ("uniqueId", some "u1")] none =
      Except.ok
        { resourceId := "r1",
          resourceObj := [("displayName", PyVal.vStr ""), ("uniqueId", PyVal.vStr "u1"),
            ("customProperties", PyVal.vDict [])] } :=
  rfl

/-- C2 (amended): in variant A a fixed optional column that is absent never
appears as a key of the first resource, but an empty-string value for such a
column is kept verbatim, empty string included, so the documented example
Record yields displayName mapped to the empty string next to uniqueId; a
non-excluded column appears in customProperties exactly when its value is
present and non-empty, copied verbatim as a string. -/
theorem claim_C2 (row : Record) (o : Option String) :
    (∀ p, CustomResource.build_payload row o = Except.ok p →
      (rowGet row "displayName" = none → ∀ v, ("displayName", v) ∉ p.resourceObj) ∧
      (∀ s, rowGet row "displayName" = some s →
        ("displayName", PyVal.vStr s) ∈ p.resourceObj)) ∧
    (∀ k v, (k, PyVal.vStr v) ∈ CustomResource.customPropertiesOf row ↔
      ((k, some v) ∈ row ∧ ¬ k ∈ CustomResource.excludedKeys ∧ v ≠ "")) := by
  constructor
  · intro p hp
    obtain ⟨-, hobj⟩ := buildA_inv hp
    constructor
    · intro hnone v hv
      rw [hobj, List.mem_filter] at hv
      obtain ⟨hmem, hpred⟩ := hv
      simp at hmem
      rw [hnone] at hmem
      rw [hmem] at hpred
      simp [CustomResource.cellToPy] at hpred
    · intro s hs
      rw [hobj]
      refine List.mem_filter.mpr ⟨?_, ?_⟩
      · simp [hs, CustomResource.cellToPy]
      · rfl
  · intro k v
    constructor
    · intro hmem
      obtain ⟨⟨k0, c0⟩, ha, hfa⟩ := List.mem_filterMap.mp hmem
      cases c0 with
      | none => simp at hfa
      | some s =>
        replace hfa : (if k0 ∈ CustomResource.excludedKeys ∨ s = "" then none
          else some (k0, PyVal.vStr s)) = some (k, PyVal.vStr v) := hfa
        by_cases hg : k0 ∈ CustomResource.excludedKeys ∨ s = ""
        · rw [if_pos hg] at hfa
          simp at hfa
        · rw [if_neg hg] at hfa
          simp at hfa
          push_neg at hg
          obtain ⟨hfa1, hfa2⟩ := hfa
          rw [← hfa1, ← hfa2]
          exact ⟨ha, hg.1, hg.2⟩
    · intro ⟨hm, hk, hv⟩
      refine List.mem_filterMap.mpr ⟨(k, some v), hm, ?_⟩
      show (if k ∈ CustomResource.excludedKeys ∨ v = "" then none
        else some (k, PyVal.vStr v)) = some (k, PyVal.vStr v)
      have hng : ¬ (k ∈ CustomResource.excludedKeys ∨ v = "") := by
        intro hc
        rcases hc with hc | hc
        · exact hk hc
        · exact hv hc
      rw [if_neg hng]

/-- Closed witness for claim C2 at concrete inputs. -/
theorem claim_C2_witness :
    ("displayName", PyVal.vStr "") ∈
      (Payload.mk "r1" [("displayName", PyVal.vStr ""), ("uniqueId", PyVal.vStr "u1"),
        ("customProperties", PyVal.vDict [])]).resourceObj ∧
    ("displayName", PyVal.vNone) ∉
      (Payload.mk "r2" [("customProperties", PyVal.vDict [])]).resourceObj ∧
    ("team", PyVal.vStr "core") ∈
      CustomResource.customPropertiesOf [("resourceId", some "r"), ("team", some "core")] := by
  refine ⟨?_, ?_, ?_⟩
  · exact ((claim_C2 [("resourceId", some "r1"), ("displayName", some ""),
      ("uniqueId", some "u1")] none).1
      (Payload.mk "r1" [("displayName", PyVal.vStr ""), ("uniqueId", PyVal.vStr "u1"),
        ("customProperties", PyVal.vDict [])]) rfl).2 "" rfl
  · exact ((claim_C2 [("resourceId", some "r2")] none).1
      (Payload.mk "r2" [("customProperties", PyVal.vDict [])]) rfl).1 rfl PyVal.vNone
  · exact ((claim_C2 [("resourceId", some "r"), ("team", some "core")] none).2
      "team" "core").mpr ⟨by simp, by decide, by decide⟩

/-- C10: every successful variant A build places a customProperties key in
the first resource, holding exactly the filtered custom columns, and this
dict is empty when every column of the Record is excluded, absent or empty,
since the None-filtering step never removes the dict itself. -/
theorem claim_C10 (row : Record) (o : Option String) :
    (∀ p, CustomResource.build_payload row o = Except.ok p →
      ("customProperties", PyVal.vDict (CustomResource.customPropertiesOf row)) ∈
        p.resourceObj) ∧
    ((∀ k c, (k, c) ∈ row → k ∈ CustomResource.excludedKeys ∨ c = none ∨ c = some "") →
      CustomResource.customPropertiesOf row = []) := by
  constructor
  · intro p hp
    obtain ⟨-, hobj⟩ := buildA_inv hp
    rw [hobj]
    refine List.mem_filter.mpr ⟨by simp, rfl⟩
  · intro h
    refine List.filterMap_eq_nil_iff.mpr ?_
    intro a ha
    rcases a with ⟨k0, c0⟩
    rcases h k0 c0 ha with hk | hc | hc
    · cases c0 with
      | none => rfl
      | some s => simp [if_pos (Or.inl hk)]
    · rw [hc]
    · rw [hc]
      simp

/-- Closed witness for claim C10 at concrete inputs. -/
theorem claim_C10_witness :
    ("customProperties",
      PyVal.vDict (CustomResource.customPropertiesOf
        ([("resourceId", some "rid")] : Record))) ∈
      (Payload.mk "rid" [("customProperties", PyVal.vDict [])]).resourceObj ∧
    CustomResource.customPropertiesOf
      ([("resourceId", some "rid"), ("displayName", some "")] : Record) = [] := by
  constructor
  · exact (claim_C10 [("resourceId", some "rid")] none).1
      (Payload.mk "rid" [("customProperties", PyVal.vDict [])]) rfl
  · refine (claim_C10 [("resourceId", some "rid"), ("displayName", some "")] none).2 ?_
    intro k c h
    simp at h
    rcases h with ⟨hk, hc⟩ | ⟨hk, hc⟩
    · rw [hk]
      exact Or.inl (by decide)
    · rw [hc]
      exact Or.inr (Or.inr rfl)

/-- C6: a non-empty resource-id override always takes precedence over the
resourceId column in both variants; with no override the payload resourceId
equals the resourceId cell of the cleaned row, which is the stripped raw
column value; variant B rejects an empty resolved resourceId with an error,
and an empty override falls through exactly like a missing one. -/
theorem claim_C6 (row : Record) (headers : List String) (o s : String) :
    (o ≠ "" → ∃ obj, CustomResource.build_payload row (some o) =
      Except.ok { resourceId := o, resourceObj := obj }) ∧
    (o ≠ "" → ∀ p, VulnerabilityLoader.build_payload row headers (some o) = Except.ok p →
      p.resourceId = o) ∧
    (rowGet row "resourceId" = some s →
      ∃ obj, CustomResource.build_payload row none =
        Except.ok { resourceId := s, resourceObj := obj }) ∧
    (rowGet row "resourceId" = some s →
      ∀ p, VulnerabilityLoader.build_payload row headers none = Except.ok p →
      p.resourceId = s) ∧
    (rowGet row "resourceId" = some "" →
      VulnerabilityLoader.build_payload row headers none =
        Except.error missingResourceIdMsg) ∧
    (VulnerabilityLoader.build_payload row headers (some "") =
      VulnerabilityLoader.build_payload row headers none) ∧
    (CustomResource.build_payload row (some "") = CustomResource.build_payload row none) ∧
    (∀ k c, (cleanRow row).lookup k = some (some c) →
      ∃ k0 v0, (k0, some v0) ∈ row ∧ pyStrip k0 = k ∧ pyStrip v0 = c) := by
  refine ⟨?_, ?_, ?_, ?_, ?_, ?_, ?_, ?_⟩
  · intro ho
    refine ⟨([("displayName", CustomResource.cellToPy (rowGet row "displayName")),
      ("uniqueId", CustomResource.cellToPy (rowGet row "uniqueId")),
      ("externalUrl", CustomResource.cellToPy (rowGet row "externalUrl")),
      ("customProperties", PyVal.vDict (CustomResource.customPropertiesOf row))].filter
        (fun kv => match kv.2 with
          | PyVal.vNone => false
          | _ => true)), ?_⟩
    unfold CustomResource.build_payload
    rw [orElseStr_some ho]
  · intro ho p hp
    obtain ⟨horel, -, -⟩ := buildB_inv hp
    rw [orElseStr_some ho] at horel
    injection horel with h
    exact h.symm
  · intro hrid
    refine ⟨([("displayName", CustomResource.cellToPy (rowGet row "displayName")),
      ("uniqueId", CustomResource.cellToPy (rowGet row "uniqueId")),
      ("externalUrl", CustomResource.cellToPy (rowGet row "externalUrl")),
      ("customProperties", PyVal.vDict (CustomResource.customPropertiesOf row))].filter
        (fun kv => match kv.2 with
          | PyVal.vNone => false
          | _ => true)), ?_⟩
    unfold CustomResource.build_payload
    rw [orElseStr_none, hrid]
  · intro hrid p hp
    obtain ⟨horel, -, -⟩ := buildB_inv hp
    rw [orElseStr_none, hrid] at horel
    injection horel with h
    exact h.symm
  · intro hrid
    unfold VulnerabilityLoader.build_payload
    rw [orElseStr_none, hrid]
    simp
  · unfold VulnerabilityLoader.build_payload
    rw [orElseStr_empty, orElseStr_none]
  · unfold CustomResource.build_payload
    rw [orElseStr_empty, orElseStr_none]
  · intro k c h
    obtain ⟨k0, c0, hm, hs, hc⟩ := cleanRow_lookup h
    cases c0 with
    | none => simp at hc
    | some v0 =>
      simp at hc
      exact ⟨k0, v0, hm, hs, hc⟩

/-- Closed witness for claim C6 at concrete inputs. -/
theorem claim_C6_witness :
    (Payload.mk "ovr" ([] : List (String × PyVal))).resourceId = "ovr" ∧
    (Payload.mk "col" ([] : List (String × PyVal))).resourceId = "col" ∧
    VulnerabilityLoader.build_payload [("resourceId", some "")] [] none =
      Except.error missingResourceIdMsg ∧
    VulnerabilityLoader.build_payload [("resourceId", some "x")] [] (some "") =
      VulnerabilityLoader.build_payload [("resourceId", some "x")] [] none ∧
    CustomResource.build_payload [("resourceId", some "x")] (some "") =
      CustomResource.build_payload [("resourceId", some "x")] none ∧
    pyStrip " resourceId " = "resourceId" ∧ pyStrip " r1 " = "r1" := by
  have h1 := (claim_C6 [("resourceId", some "col")] ["resourceId"] "ovr" "col").2.1
    (by decide) (Payload.mk "ovr" []) rfl
  have h2 := (claim_C6 [("resourceId", some "col")] ["resourceId"] "ovr" "col").2.2.2.1
    rfl (Payload.mk "col" []) rfl
  have h3 := (claim_C6 [("resourceId", some "")] [] "o" "").2.2.2.2.1 rfl
  have h4 := (claim_C6 [("resourceId", some "x")] [] "o" "x").2.2.2.2.2.1
  have h5 := (claim_C6 [("resourceId", some "x")] [] "o" "x").2.2.2.2.2.2.1
  obtain ⟨k0, v0, hm, hsk, hsv⟩ :=
    (claim_C6 [(" resourceId ", some " r1 ")] [] "o" "r1").2.2.2.2.2.2.2
      "resourceId" "r1" rfl
  simp at hm
  refine ⟨h1, h2, h3, h4, h5, ?_, ?_⟩
  · rw [← hm.1]
    exact hsk
  · rw [← hm.2]
    exact hsv

/-- C7 counterexample: with a base URL ending in two slashes the code removes
both, while the claim says exactly one trailing slash is trimmed, which would
leave a double slash before the appended value. -/
theorem claim_C7_counterexample :
    build_row_url "https://api.example.com/res//" (some "id") [("id", some "42")] =
      Except.ok "https://api.example.com/res/42" ∧
    "https://api.example.com/res/42" ≠ "https://api.example.com/res//42" := by
  exact ⟨rfl, by decide⟩

/-- C7 (amended): with a configured non-empty id-column, the per-row URL is
the base URL with every trailing slash trimmed, then a slash and the raw row
value of that column; a missing-column error is raised when the id-column is
absent from the row; the documented example yields the same URL whether or
not the base ends in a single slash. -/
theorem claim_C7 (base col : String) (row : Record) (cell : Cell) (hcol : col ≠ "") :
    (row.lookup col = some cell →
      build_row_url base (some col) row =
        Except.ok (pyRstripSlashes base ++ "/" ++ cellStr cell)) ∧
    (row.lookup col = none →
      build_row_url base (some col) row = Except.error (missingColumnMsg col)) ∧
    build_row_url base none row = Except.ok base ∧
    build_row_url "https://api.example.com/res" (some "id") [("id", some "42")] =
      Except.ok "https://api.example.com/res/42" ∧
    build_row_url "https://api.example.com/res/" (some "id") [("id", some "42")] =
      Except.ok "https://api.example.com/res/42" := by
  refine ⟨?_, ?_, rfl, rfl, rfl⟩
  · intro h
    show (if col = "" then Except.ok base
      else match row.lookup col with
        | none => Except.error (missingColumnMsg col)
        | some c2 => Except.ok (pyRstripSlashes base ++ "/" ++ cellStr c2)) =
      Except.ok (pyRstripSlashes base ++ "/" ++ cellStr cell)
    rw [if_neg hcol, h]
  · intro h
    show (if col = "" then Except.ok base
      else match row.lookup col with
        | none => Except.error (missingColumnMsg col)
        | some c2 => Except.ok (pyRstripSlashes base ++ "/" ++ cellStr c2)) =
      Except.error (missingColumnMsg col)
    rw [if_neg hcol, h]

/-- Closed witness for claim C7 at concrete inputs. -/
theorem claim_C7_witness :
    build_row_url "http://h/a" (some "k") [("k", some "7")] = Except.ok "http://h/a/7" ∧
    build_row_url "http://h/a" (some "k") [("x", some "7")] =
      Except.error (missingColumnMsg "k") := by
  have h := claim_C7 "http://h/a" "k" [("k", some "7")] (some "7") (by decide)
  have h2 := claim_C7 "http://h/a" "k" [("x", some "7")] none (by decide)
  exact ⟨h.1 rfl, h2.2.1 rfl⟩

/-- C8: in the shared per-row loop a transport error on one row is caught,
logged and processing continues with the remaining rows; a payload
construction failure ends the whole batch at that row; and a non-2xx
response is not an exception: it is logged as a failure line with the body
truncated to 500 characters and processing continues. -/
theorem claim_C8 (builder : Record → Option String → Except String Payload)
    (apiUrl : String) (idColumn override : Option String)
    (transport : Nat → String → Payload → HttpOutcome) (i : Nat)
    (row : Record) (rest : List Record) (url : String) (payload : Payload) :
    (build_row_url apiUrl idColumn row = Except.ok url →
      builder (cleanRow row) override = Except.ok payload →
      ∀ m, transport i url payload = HttpOutcome.transportError m →
      process_rows builder apiUrl idColumn override false transport i (row :: rest) =
        (process_rows builder apiUrl idColumn override false transport (i + 1) rest).map
          (fun rs => RowResult.errorLine m :: rs)) ∧
    (∀ e, build_row_url apiUrl idColumn row = Except.ok url →
      builder (cleanRow row) override = Except.error e →
      process_rows builder apiUrl idColumn override false transport i (row :: rest) =
        Except.error e) ∧
    (∀ st body, build_row_url apiUrl idColumn row = Except.ok url →
      builder (cleanRow row) override = Except.ok payload →
      transport i url payload = HttpOutcome.response st body →
      ¬ (200 ≤ st ∧ st < 300) →
      process_rows builder apiUrl idColumn override false transport i (row :: rest) =
        (process_rows builder apiUrl idColumn override false transport (i + 1) rest).map
          (fun rs => RowResult.failLine st (pyTruncate body 500) :: rs)) := by
  refine ⟨?_, ?_, ?_⟩
  · intro hurl hbuild m htr
    rw [process_rows, hurl, hbuild]
    simp only [Bool.false_eq_true, if_false, htr]
    cases hrec : process_rows builder apiUrl idColumn override false transport (i + 1) rest with
    | ok rs => rfl
    | error e => rfl
  · intro e hurl hbuild
    rw [process_rows, hurl, hbuild]
  · intro st body hurl hbuild htr hst
    rw [process_rows, hurl, hbuild]
    simp only [Bool.false_eq_true, if_false, htr, if_neg hst]
    cases hrec : process_rows builder apiUrl idColumn override false transport (i + 1) rest with
    | ok rs => rfl
    | error e => rfl

/-- Closed witness for claim C8 at concrete inputs. -/
theorem claim_C8_witness :
    process_rows CustomResource.build_payload "http://h" none none false
        (fun _ _ _ => HttpOutcome.transportError "boom") 1
        [[("resourceId", some "r")], [("resourceId", some "r2")]] =
      Except.ok [RowResult.errorLine "boom", RowResult.errorLine "boom"] ∧
    process_rows CustomResource.build_payload "http://h" none none false
        (fun _ _ _ => HttpOutcome.transportError "boom") 1
        [([] : Record)] = Except.error missingResourceIdMsg ∧
    process_rows CustomResource.build_payload "http://h" none none false
        (fun _ _ _ => HttpOutcome.response 500 "oops") 1
        [[("resourceId", some "r")]] =
      Except.ok [RowResult.failLine 500 "oops"] := by
  refine ⟨?_, ?_, ?_⟩
  · have h1 := (claim_C8 CustomResource.build_payload "http://h" none none
      (fun _ _ _ => HttpOutcome.transportError "boom") 1
      [("resourceId", some "r")] [[("resourceId", some "r2")]] "http://h"
      (Payload.mk "r" [("customProperties", PyVal.vDict [])])).1 rfl rfl "boom" rfl
    have h2 := (claim_C8 CustomResource.build_payload "http://h" none none
      (fun _ _ _ => HttpOutcome.transportError "boom") 2
      [("resourceId", some "r2")] [] "http://h"
      (Payload.mk "r2" [("customProperties", PyVal.vDict [])])).1 rfl rfl "boom" rfl
    rw [h1, h2]
    rfl
  · exact (claim_C8 CustomResource.build_payload "http://h" none none
      (fun _ _ _ => HttpOutcome.transportError "boom") 1
      ([] : Record) [] "http://h"
      (Payload.mk "r" [])).2.1 missingResourceIdMsg rfl rfl
  · have h3 := (claim_C8 CustomResource.build_payload "http://h" none none
      (fun _ _ _ => HttpOutcome.response 500 "oops") 1
      [("resourceId", some "r")] [] "http://h"
      (Payload.mk "r" [("customProperties", PyVal.vDict [])])).2.2 500 "oops"
      rfl rfl rfl (by decide)
    rw [h3]
    rfl
